import Mathlib

/-!
Verification development for the consul-k8s connect-inject core: a shallow
embedding of `container_init.go` (init-container command synthesizer) and
`endpoints_controller.go` (endpoints reconciler), with theorems checking the
natural-language specification against the embedded code.

Strings are modelled with Lean `String`; Go maps of strings are modelled as
association lists; fallible Go functions returning `(T, error)` are modelled
with `Except String T`.
-/

set_option autoImplicit false

namespace ConsulK8s

/-! ## String helpers (models of Go `strings` / `strconv` functions) -/

/-- Model of Go `strings.Split(s, sep)` for a single-character separator.
Implemented by structural recursion on the character list so that it reduces
in the kernel. Like Go, splitting the empty string yields `[""]`. -/
def splitChar (sep : Char) (s : String) : List String :=
  let rec go : List Char → List Char → List String
    | [], acc => [String.mk acc.reverse]
    | c :: cs, acc =>
      if c = sep then String.mk acc.reverse :: go cs []
      else go cs (c :: acc)
  go s.data []

/-- Model of Go `strings.SplitN(s, ":", 3)`: at most three parts, the
remainder (colons included) kept in the last part. -/
def splitN3Colon (s : String) : List String :=
  match splitChar ':' s with
  | [] => [s]
  | [a] => [a]
  | [a, b] => [a, b]
  | a :: b :: rest => [a, b, String.intercalate ":" rest]

/-- Whitespace recognized by the model of Go `strings.TrimSpace`. -/
def isSpaceChar (c : Char) : Bool :=
  c = ' ' || c = '\t' || c = '\n' || c = '\r'

/-- Model of Go `strings.TrimSpace`. -/
def trimSpace (s : String) : String :=
  String.mk (((s.data.dropWhile isSpaceChar).reverse.dropWhile isSpaceChar).reverse)

/-- Model of Go `strings.HasPrefix`. -/
def goHasPrefix (s pre : String) : Bool :=
  pre.data.isPrefixOf s.data

/-- Model of Go `strings.TrimPrefix`. -/
def goTrimPrefix (s pre : String) : String :=
  if goHasPrefix s pre then String.mk (s.data.drop pre.data.length) else s

/-- Model of Go `strings.ToUpper` for ASCII strings. -/
def goToUpper (s : String) : String :=
  String.mk (s.data.map (fun c => c.toUpper))

/-- Model of Go `strings.ReplaceAll(s, "-", "_")` for single characters. -/
def replaceAllChar (s : String) (old new : Char) : String :=
  String.mk (s.data.map (fun c => if c = old then new else c))

/-- Model of Go `strconv.ParseBool`: accepts exactly
`1, t, T, TRUE, true, True` (true) and `0, f, F, FALSE, false, False` (false),
anything else is a parse failure (`none`). -/
def parseBool (s : String) : Option Bool :=
  if s = "1" || s = "t" || s = "T" || s = "TRUE" || s = "true" || s = "True" then
    some true
  else if s = "0" || s = "f" || s = "F" || s = "FALSE" || s = "false" || s = "False" then
    some false
  else
    none

/-- Decimal digit value of a character, if it is a digit. -/
def digitVal (c : Char) : Option Nat :=
  if c.isDigit then some (c.toNat - '0'.toNat) else none

/-- Parse an unsigned decimal number from a character list. -/
def parseDigits : List Char → Option Nat
  | [] => none
  | cs =>
    cs.foldl (fun acc c =>
      match acc, digitVal c with
      | some n, some d => some (n * 10 + d)
      | _, _ => none) (some 0)

/-- Model of the decimal case of Go `strconv.ParseInt`: optional sign
followed by at least one digit. -/
def parseInt (s : String) : Option Int :=
  match s.data with
  | [] => none
  | '-' :: cs => (parseDigits cs).map (fun n => -(n : Int))
  | '+' :: cs => (parseDigits cs).map (fun n => (n : Int))
  | cs => (parseDigits cs).map (fun n => (n : Int))

/-- Lookup in an association list modelling a Go `map[string]string`. -/
def lookupStr (m : List (String × String)) (k : String) : Option String :=
  (m.find? (fun p => p.1 = k)).map (fun p => p.2)

/-- Insertion into an association list with Go map semantics: a later write
for the same key overrides the earlier value. -/
def assocSet (m : List (String × String)) (k v : String) : List (String × String) :=
  (m.filter (fun p => p.1 ≠ k)) ++ [(k, v)]

/-! ## Data model: Kubernetes objects (read-only views, fields used by the code) -/

/-- A named/numeric container port declared by a pod container. -/
structure PortDecl where
  portName : String
  containerPort : Int
  deriving DecidableEq, Repr

/-- A container volume mount. -/
structure VolumeMount where
  mountName : String
  mountPath : String
  deriving DecidableEq, Repr

/-- A pod container: name, declared ports, volume mounts. -/
structure PodContainer where
  name : String
  ports : List PortDecl
  volumeMounts : List VolumeMount
  deriving DecidableEq, Repr

/-- The read-only view of a Kubernetes pod used by the code. -/
structure Pod where
  name : String
  ns : String
  annotations : List (String × String)
  labels : List (String × String)
  containers : List PodContainer
  serviceAccountName : String
  hostIP : String
  podIP : String
  deriving DecidableEq, Repr

/-- The read-only view of a Kubernetes namespace: name plus labels. -/
structure K8sNamespace where
  name : String
  labels : List (String × String)
  deriving DecidableEq, Repr

/-- An object reference carried by an endpoint address (`TargetRef`). -/
structure ObjectRef where
  kind : String
  name : String
  ns : String
  deriving DecidableEq, Repr

/-- One address of an Endpoints subset. -/
structure EndpointAddress where
  ip : String
  targetRef : Option ObjectRef
  deriving DecidableEq, Repr

/-- One subset of a Kubernetes Endpoints object. -/
structure EndpointSubset where
  addresses : List EndpointAddress
  notReadyAddresses : List EndpointAddress
  deriving DecidableEq, Repr

/-- A Kubernetes Endpoints object. -/
structure Endpoints where
  name : String
  ns : String
  subsets : List EndpointSubset
  deriving DecidableEq, Repr

/-! ## Annotation keys and constants

Modelled from the spec: the annotation-key constants (`annotations.go`) are
defined outside the provided sources; only their existence and distinctness
matter, so they are given their upstream string values. -/

def keyTransparentProxy : String := "consul.hashicorp.com/transparent-proxy"
def keyConsulDNS : String := "consul.hashicorp.com/consul-dns"
def annotationService : String := "consul.hashicorp.com/connect-service"
def annotationPort : String := "consul.hashicorp.com/connect-service-port"
def annotationUpstreams : String := "consul.hashicorp.com/connect-service-upstreams"
def annotationTags : String := "consul.hashicorp.com/service-tags"
def annotationConnectTags : String := "consul.hashicorp.com/connect-service-tags"
def annotationMeta : String := "consul.hashicorp.com/service-meta-"
def annotationStatus : String := "consul.hashicorp.com/connect-inject-status"
def annotationPrometheusCAFile : String := "consul.hashicorp.com/prometheus-ca-file"
def annotationPrometheusCAPath : String := "consul.hashicorp.com/prometheus-ca-path"
def annotationPrometheusCertFile : String := "consul.hashicorp.com/prometheus-cert-file"
def annotationPrometheusKeyFile : String := "consul.hashicorp.com/prometheus-key-file"
def annotationTProxyExcludeInboundPorts : String := "consul.hashicorp.com/transparent-proxy-exclude-inbound-ports"
def annotationTProxyExcludeOutboundPorts : String := "consul.hashicorp.com/transparent-proxy-exclude-outbound-ports"
def annotationTProxyExcludeOutboundCIDRs : String := "consul.hashicorp.com/transparent-proxy-exclude-outbound-cidrs"
def annotationTProxyExcludeUIDs : String := "consul.hashicorp.com/transparent-proxy-exclude-uids"

/-- Modelled from the spec: the value of the injection status marker
(constant `injected`, defined outside the provided sources). -/
def injected : String := "injected"

def MetaKeyPodName : String := "pod-name"
def MetaKeyKubeServiceName : String := "k8s-service-name"
def MetaKeyKubeNS : String := "k8s-namespace"

/-! ## Annotation/Config Resolver (`container_init.go`) -/

/-- Embedding of `transparentProxyEnabled` (container_init.go:344-355):
pod annotation wins, else the namespace label, else the global default;
a present but unparseable value is an error. -/
def transparentProxyEnabled (ns : K8sNamespace) (pod : Pod) (globalEnabled : Bool) :
    Except String Bool :=
  match lookupStr pod.annotations keyTransparentProxy with
  | some raw =>
    match parseBool raw with
    | some b => .ok b
    | none => .error ("invalid syntax parsing " ++ raw)
  | none =>
    match lookupStr ns.labels keyTransparentProxy with
    | some raw =>
      match parseBool raw with
      | some b => .ok b
      | none => .error ("invalid syntax parsing " ++ raw)
    | none => .ok globalEnabled

/-- Embedding of `consulDNSEnabled` (container_init.go:360-371): same
three-tier resolution keyed by the Consul-DNS key. -/
def consulDNSEnabled (ns : K8sNamespace) (pod : Pod) (globalEnabled : Bool) :
    Except String Bool :=
  match lookupStr pod.annotations keyConsulDNS with
  | some raw =>
    match parseBool raw with
    | some b => .ok b
    | none => .error ("invalid syntax parsing " ++ raw)
  | none =>
    match lookupStr ns.labels keyConsulDNS with
    | some raw =>
      match parseBool raw with
      | some b => .ok b
      | none => .error ("invalid syntax parsing " ++ raw)
    | none => .ok globalEnabled

/-- The three-tier resolution contract claimed by the spec for a resolver
`f` consulting pod annotations and namespace labels at `key`. -/
def ThreeTierSpec (f : K8sNamespace → Pod → Bool → Except String Bool)
    (key : String) (ns : K8sNamespace) (pod : Pod) (g : Bool) : Prop :=
  (∀ raw, lookupStr pod.annotations key = some raw →
    (∀ b, parseBool raw = some b → f ns pod g = .ok b) ∧
    (parseBool raw = none → ∃ e, f ns pod g = .error e)) ∧
  (lookupStr pod.annotations key = none →
    ∀ raw, lookupStr ns.labels key = some raw →
      (∀ b, parseBool raw = some b → f ns pod g = .ok b) ∧
      (parseBool raw = none → ∃ e, f ns pod g = .error e)) ∧
  (lookupStr pod.annotations key = none →
    lookupStr ns.labels key = none → f ns pod g = .ok g)

theorem transparentProxy_threeTier (ns : K8sNamespace) (pod : Pod) (g : Bool) :
    ThreeTierSpec transparentProxyEnabled keyTransparentProxy ns pod g := by
  refine ⟨?_, ?_, ?_⟩
  · intro raw hraw
    constructor
    · intro b hb
      simp [transparentProxyEnabled, hraw, hb]
    · intro hb
      exact ⟨"invalid syntax parsing " ++ raw, by simp [transparentProxyEnabled, hraw, hb]⟩
  · intro hnone raw hraw
    constructor
    · intro b hb
      simp [transparentProxyEnabled, hnone, hraw, hb]
    · intro hb
      exact ⟨"invalid syntax parsing " ++ raw, by simp [transparentProxyEnabled, hnone, hraw, hb]⟩
  · intro h1 h2
    simp [transparentProxyEnabled, h1, h2]

theorem consulDNS_threeTier (ns : K8sNamespace) (pod : Pod) (g : Bool) :
    ThreeTierSpec consulDNSEnabled keyConsulDNS ns pod g := by
  refine ⟨?_, ?_, ?_⟩
  · intro raw hraw
    constructor
    · intro b hb
      simp [consulDNSEnabled, hraw, hb]
    · intro hb
      exact ⟨"invalid syntax parsing " ++ raw, by simp [consulDNSEnabled, hraw, hb]⟩
  · intro hnone raw hraw
    constructor
    · intro b hb
      simp [consulDNSEnabled, hnone, hraw, hb]
    · intro hb
      exact ⟨"invalid syntax parsing " ++ raw, by simp [consulDNSEnabled, hnone, hraw, hb]⟩
  · intro h1 h2
    simp [consulDNSEnabled, h1, h2]

/-- C1: both three-tier boolean resolvers (transparent proxy and Consul DNS)
return the parsed pod annotation when present, else the parsed namespace
label when present, else the global default, and error (rather than falling
back) whenever the consulted value is present but not a valid boolean. -/
theorem c1_three_tier_resolvers (ns : K8sNamespace) (pod : Pod) (g : Bool) :
    ThreeTierSpec transparentProxyEnabled keyTransparentProxy ns pod g ∧
    ThreeTierSpec consulDNSEnabled keyConsulDNS ns pod g :=
  ⟨transparentProxy_threeTier ns pod g, consulDNS_threeTier ns pod g⟩

/-- Concrete check for C1: a pod annotation `"true"` overrides a namespace
label `"false"`, an unparseable annotation `"bananas"` errors, and with
neither source present the global default is returned. -/
theorem c1_three_tier_resolvers_witness :
    transparentProxyEnabled
      ⟨"ns1", [(keyTransparentProxy, "false")]⟩
      { name := "p1", ns := "ns1",
        annotations := [(keyTransparentProxy, "true")], labels := [],
        containers := [], serviceAccountName := "", hostIP := "", podIP := "" }
      false = .ok true ∧
    (∃ e, consulDNSEnabled
      ⟨"ns1", []⟩
      { name := "p1", ns := "ns1",
        annotations := [(keyConsulDNS, "bananas")], labels := [],
        containers := [], serviceAccountName := "", hostIP := "", podIP := "" }
      true = .error e) ∧
    consulDNSEnabled ⟨"ns1", []⟩
      { name := "p1", ns := "ns1", annotations := [], labels := [],
        containers := [], serviceAccountName := "", hostIP := "", podIP := "" }
      true = .ok true := by
  refine ⟨?_, ?_, ?_⟩
  · exact ((c1_three_tier_resolvers _ _ false).1).1 "true" (by decide) |>.1 true (by decide)
  · exact ((c1_three_tier_resolvers _ _ true).2).1 "bananas" (by decide) |>.2 (by decide)
  · exact ((c1_three_tier_resolvers _ _ true).2).2.2 (by decide) (by decide)

/-! ## Command Synthesizer data (`container_init.go`) -/

/-- Model of Go `strings.HasSuffix`. -/
def goHasSuffix (s suf : String) : Bool :=
  suf.data.isSuffixOf s.data

/-- Modelled from the spec: the external metrics-config collaborator
(`MetricsConfig` methods `shouldRunMergedMetricsServer`, `prometheusScrapePath`
and `mergedMetricsPort` are defined outside the provided sources). It decides
whether a merged metrics server runs and supplies the scrape path and backend
port; the two fallible lookups may error. -/
structure MetricsCfg where
  shouldRunMerged : Pod → Except String Bool
  scrapePathOf : Pod → String
  mergedPortOf : Pod → Except String String

/-- The webhook configuration fields of `MeshWebhook` read by
`containerInit`. `envLookup` models `os.Getenv` (empty string = unset);
`consulNamespaceOf` models the `consulNamespace` method, which is defined
outside the provided sources (modelled from the spec: mesh-namespace
targeting resolved from the k8s namespace name). -/
structure MeshWebhook where
  AuthMethod : String
  ConsulPartition : String
  EnableK8SNSMirroring : Bool
  ConsulCACert : String
  EnableTransparentProxy : Bool
  EnableConsulDNS : Bool
  EnableCNI : Bool
  ResourcePrefix : String
  ConsulAPITimeout : String
  ImageConsulK8S : String
  metricsCfg : MetricsCfg
  consulNamespaceOf : String → String
  envLookup : String → String

/-- The per-service data of a multiport call (`multiPortInfo`): an empty
service name means single-service mode. -/
structure MultiPortInfo where
  serviceName : String
  serviceIndex : Nat
  deriving DecidableEq, Repr

/-- Embedding of `initContainerCommandData` (container_init.go:26-102). -/
structure InitContainerCommandData where
  ServiceName : String
  ServiceAccountName : String
  AuthMethod : String
  ConsulPartition : String
  ConsulNamespace : String
  NamespaceMirroringEnabled : Bool
  ConsulCACert : String
  EnableMetrics : Bool
  PrometheusScrapePath : String
  PrometheusBackendPort : String
  PrometheusCAFile : String
  PrometheusCAPath : String
  PrometheusCertFile : String
  PrometheusKeyFile : String
  EnvoyUID : Nat
  EnableTransparentProxy : Bool
  EnableCNI : Bool
  TProxyExcludeInboundPorts : List String
  TProxyExcludeOutboundPorts : List String
  TProxyExcludeOutboundCIDRs : List String
  TProxyExcludeUIDs : List String
  ConsulDNSClusterIP : String
  MultiPort : Bool
  EnvoyAdminPort : Nat
  BearerTokenFile : String
  ConsulAPITimeout : String
  deriving DecidableEq, Repr

def rootUserAndGroupID : Nat := 0
def envoyUserAndGroupID : Nat := 5995
def initContainersUserAndGroupID : Nat := 5996
def netAdminCapability : String := "NET_ADMIN"
def dnsServiceHostEnvSuffix : String := "DNS_SERVICE_HOST"
def InjectInitContainerName : String := "consul-connect-inject-init"

/-- A container security context (the fields the code sets). -/
structure SecurityContext where
  runAsUser : Nat
  runAsGroup : Nat
  runAsNonRoot : Bool
  privileged : Bool
  capAdd : List String
  capDrop : List String
  deriving DecidableEq, Repr

/-- The synthesized init container (the fields the claims examine): name,
rendered command lines, volume mounts and optional security context. -/
structure ContainerSpec where
  name : String
  cmdLines : List String
  volumeMounts : List VolumeMount
  securityContext : Option SecurityContext
  deriving DecidableEq, Repr

/-- Embedding of `constructDNSServiceHostName` (container_init.go:335-339). -/
def constructDNSServiceHostName (w : MeshWebhook) : String :=
  replaceAllChar (goToUpper w.ResourcePrefix) '-' '_' ++ "_" ++ dnsServiceHostEnvSuffix

/-- Embedding of `splitCommaSeparatedItemsFromAnno...` (container_init.go:375-382;
name shortened): the comma-separated value of the annotation, or the empty
list when the annotation is absent. -/
def splitCommaSeparatedItems (key : String) (pod : Pod) : List String :=
  match lookupStr pod.annotations key with
  | some raw => splitChar ',' raw
  | none => []

/-- Modelled from the spec: `findServiceAccountVolumeMount` is defined
outside the provided sources. Multiport picks the container whose name
matches the per-service convention (the service name); otherwise the first
container exposing a `...serviceaccount` mount path is used; failure to find
the mount is a hard error. The bearer token file lives under the mount. -/
def findServiceAccountVolumeMount (pod : Pod) (multiPort : Bool) (svcName : String) :
    Except String (VolumeMount × String) :=
  let mounts : List VolumeMount :=
    if multiPort then
      match pod.containers.find? (fun c => c.name = svcName) with
      | some c => c.volumeMounts
      | none => []
    else
      pod.containers.flatMap (fun c => c.volumeMounts)
  match mounts.find? (fun m => goHasSuffix m.mountPath "serviceaccount") with
  | some m => .ok (m, m.mountPath ++ "/token")
  | none => .error "unable to find service account token volumeMount"

/-- The raw value of a Prometheus TLS annotation as the code reads it
(container_init.go:229-240): the field is set only when the annotation is
present with a non-empty value, and defaults to the empty string. -/
def prometheusTLSField (pod : Pod) (key : String) : String :=
  match lookupStr pod.annotations key with
  | some raw => if raw != "" then raw else ""
  | none => ""

def errMsgCA : String :=
  "Must set one of \"" ++ annotationPrometheusCAFile ++ "\" or \"" ++
    annotationPrometheusCAPath ++ "\" when providing prometheus TLS config"

def errMsgCert : String :=
  "Must set \"" ++ annotationPrometheusCertFile ++ "\" when providing prometheus TLS config"

def errMsgKey : String :=
  "Must set \"" ++ annotationPrometheusKeyFile ++ "\" when providing prometheus TLS config"

/-- Embedding of the Prometheus TLS validation block
(container_init.go:242-253). -/
def validatePrometheusTLS (caFile caPath certFile keyFile : String) :
    Except String Unit :=
  if certFile != "" || keyFile != "" || caFile != "" || caPath != "" then
    if caFile == "" && caPath == "" then .error errMsgCA
    else if certFile == "" then .error errMsgCert
    else if keyFile == "" then .error errMsgKey
    else .ok ()
  else .ok ()

/-- Embedding of the data-assembly part of `containerInit`
(container_init.go:136-253), split from the container assembly for
presentation: resolves transparent-proxy and Consul-DNS enablement, the DNS
cluster IP, multiport mode, service/service-account names, the bearer-token
volume mount, metrics wiring and Prometheus TLS fields, and returns the
rendered-command data plus the container volume mounts. Every error return
of the source aborts the call. -/
def buildInitContainerCommandData (w : MeshWebhook) (ns : K8sNamespace) (pod : Pod)
    (mpi : MultiPortInfo) :
    Except String (InitContainerCommandData × List VolumeMount) :=
  match transparentProxyEnabled ns pod w.EnableTransparentProxy with
  | .error e => .error e
  | .ok tproxyEnabled =>
  match consulDNSEnabled ns pod w.EnableConsulDNS with
  | .error e => .error e
  | .ok dnsEnabled =>
  let dnsIP := if dnsEnabled then w.envLookup (constructDNSServiceHostName w) else ""
  if dnsEnabled && dnsIP == "" then
    .error ("environment variable " ++ constructDNSServiceHostName w ++ " is not found")
  else
  let multiPort : Bool := mpi.serviceName != ""
  let serviceName := if multiPort then mpi.serviceName
    else (lookupStr pod.annotations annotationService).getD ""
  let serviceAccountName :=
    if w.AuthMethod != "" then
      (if multiPort then mpi.serviceName else pod.serviceAccountName)
    else ""
  match (if w.AuthMethod != "" then
          (findServiceAccountVolumeMount pod multiPort mpi.serviceName).map some
         else .ok none) with
  | .error e => .error e
  | .ok mountInfo =>
  let bearerTokenFile := match mountInfo with
    | some (_, f) => f
    | none => ""
  let volMounts := [⟨"consul-connect-inject-data", "/consul/connect-inject"⟩] ++
    (match mountInfo with
     | some (m, _) => [m]
     | none => [])
  match w.metricsCfg.shouldRunMerged pod with
  | .error e => .error e
  | .ok metricsServer =>
  match (if metricsServer then (w.metricsCfg.mergedPortOf pod).map some else .ok none) with
  | .error e => .error e
  | .ok metricsPort =>
  let scrapePath := if metricsServer then w.metricsCfg.scrapePathOf pod else ""
  let backendPort := match metricsPort with
    | some p => p
    | none => ""
  let caFile := prometheusTLSField pod annotationPrometheusCAFile
  let caPath := prometheusTLSField pod annotationPrometheusCAPath
  let certFile := prometheusTLSField pod annotationPrometheusCertFile
  let keyFile := prometheusTLSField pod annotationPrometheusKeyFile
  match validatePrometheusTLS caFile caPath certFile keyFile with
  | .error e => .error e
  | .ok _ =>
    .ok ({ ServiceName := serviceName
           ServiceAccountName := serviceAccountName
           AuthMethod := w.AuthMethod
           ConsulPartition := w.ConsulPartition
           ConsulNamespace := w.consulNamespaceOf ns.name
           NamespaceMirroringEnabled := w.EnableK8SNSMirroring
           ConsulCACert := w.ConsulCACert
           EnableMetrics := metricsServer
           PrometheusScrapePath := scrapePath
           PrometheusBackendPort := backendPort
           PrometheusCAFile := caFile
           PrometheusCAPath := caPath
           PrometheusCertFile := certFile
           PrometheusKeyFile := keyFile
           EnvoyUID := envoyUserAndGroupID
           EnableTransparentProxy := tproxyEnabled
           EnableCNI := w.EnableCNI
           TProxyExcludeInboundPorts := splitCommaSeparatedItems annotationTProxyExcludeInboundPorts pod
           TProxyExcludeOutboundPorts := splitCommaSeparatedItems annotationTProxyExcludeOutboundPorts pod
           TProxyExcludeOutboundCIDRs := splitCommaSeparatedItems annotationTProxyExcludeOutboundCIDRs pod
           TProxyExcludeUIDs := splitCommaSeparatedItems annotationTProxyExcludeUIDs pod
           ConsulDNSClusterIP := dnsIP
           MultiPort := multiPort
           EnvoyAdminPort := 19000 + mpi.serviceIndex
           BearerTokenFile := bearerTokenFile
           ConsulAPITimeout := w.ConsulAPITimeout }, volMounts)

/-! ## Template rendering (`initContainerCommandTpl`, container_init.go:386-511)

The Go text template is embedded as functions from the command data to the
list of rendered command lines, one section per top-level command of the
template. A line guarded by a template conditional is present exactly when
the corresponding field is truthy (non-empty string / true boolean). -/

/-- A command line made of a fixed flag prefix and a variable remainder. -/
def flagLine (pre rest : String) : String := pre ++ rest

/-- A conditionally rendered line: present exactly when the guard holds. -/
def optLine (b : Bool) (l : String) : List String := if b then [l] else []

/-- The `-admin-bind` line of the envoy-bootstrap step
(container_init.go:470-472). -/
def adminBindLine (port : Nat) : String :=
  flagLine "  -admin-bind=127.0.0.1:" (toString port ++ " \\")

/-- The Consul address exports at the top of the template
(container_init.go:387-397). -/
def renderConsulAddrExports (d : InitContainerCommandData) : List String :=
  if d.ConsulCACert != "" then
    ["export CONSUL_HTTP_ADDR=\"https://${HOST_IP}:8501\"",
     "export CONSUL_GRPC_ADDR=\"https://${HOST_IP}:8502\"",
     "export CONSUL_CACERT=/consul/connect-inject/consul-ca.pem",
     "cat <<EOF >/consul/connect-inject/consul-ca.pem",
     d.ConsulCACert,
     "EOF"]
  else
    ["export CONSUL_HTTP_ADDR=\"${HOST_IP}:8500\"",
     "export CONSUL_GRPC_ADDR=\"${HOST_IP}:8502\""]

/-- The `connect-init` polling step (container_init.go:398-430). -/
def renderConnectInit (d : InitContainerCommandData) : List String :=
  ["consul-k8s-control-plane connect-init -pod-name=${POD_NAME} -pod-namespace=${POD_NAMESPACE} \\",
   flagLine "  -consul-api-timeout=" (d.ConsulAPITimeout ++ " \\")] ++
  (if d.AuthMethod != "" then
    [flagLine "  -acl-auth-method=\"" (d.AuthMethod ++ "\" \\"),
     flagLine "  -service-account-name=\"" (d.ServiceAccountName ++ "\" \\"),
     flagLine "  -service-name=\"" (d.ServiceName ++ "\" \\"),
     flagLine "  -bearer-token-file=" (d.BearerTokenFile ++ " \\")] ++
    optLine d.MultiPort
      (flagLine "  -acl-token-sink=/consul/connect-inject/acl-token-" (d.ServiceName ++ " \\")) ++
    (if d.ConsulNamespace != "" then
      (if d.NamespaceMirroringEnabled then
        ["  -auth-method-namespace=\"default\" \\"]
      else
        [flagLine "  -auth-method-namespace=\"" (d.ConsulNamespace ++ "\" \\")])
    else [])
  else []) ++
  (if d.MultiPort then
    ["  -multiport=true \\",
     flagLine "  -proxy-id-file=/consul/connect-inject/proxyid-" (d.ServiceName ++ " \\")] ++
    optLine (d.AuthMethod == "") (flagLine "  -service-name=\"" (d.ServiceName ++ "\" \\"))
  else []) ++
  optLine (d.ConsulPartition != "") (flagLine "  -partition=\"" (d.ConsulPartition ++ "\" \\")) ++
  optLine (d.ConsulNamespace != "")
    (flagLine "  -consul-service-namespace=\"" (d.ConsulNamespace ++ "\" \\"))

/-- The envoy-bootstrap generation step (container_init.go:432-473). -/
def renderEnvoyBootstrap (d : InitContainerCommandData) : List String :=
  ["",
   "# Generate the envoy bootstrap code",
   "/consul/connect-inject/consul connect envoy \\"] ++
  (if d.MultiPort then
    [flagLine "  -proxy-id=\"$(cat /consul/connect-inject/proxyid-" (d.ServiceName ++ ")\" \\")]
  else
    ["  -proxy-id=\"$(cat /consul/connect-inject/proxyid)\" \\"]) ++
  optLine (d.PrometheusScrapePath != "")
    (flagLine "  -prometheus-scrape-path=\"" (d.PrometheusScrapePath ++ "\" \\")) ++
  optLine (d.PrometheusBackendPort != "")
    (flagLine "  -prometheus-backend-port=\"" (d.PrometheusBackendPort ++ "\" \\")) ++
  optLine (d.PrometheusCAFile != "")
    (flagLine "  -prometheus-ca-file=\"" (d.PrometheusCAFile ++ "\" \\")) ++
  optLine (d.PrometheusCAPath != "")
    (flagLine "  -prometheus-ca-path=\"" (d.PrometheusCAPath ++ "\" \\")) ++
  optLine (d.PrometheusCertFile != "")
    (flagLine "  -prometheus-cert-file=\"" (d.PrometheusCertFile ++ "\" \\")) ++
  optLine (d.PrometheusKeyFile != "")
    (flagLine "  -prometheus-key-file=\"" (d.PrometheusKeyFile ++ "\" \\")) ++
  (if d.AuthMethod != "" then
    if d.MultiPort then
      [flagLine "  -token-file=\"/consul/connect-inject/acl-token-" (d.ServiceName ++ "\" \\")]
    else
      ["  -token-file=\"/consul/connect-inject/acl-token\" \\"]
  else []) ++
  optLine (d.ConsulPartition != "") (flagLine "  -partition=\"" (d.ConsulPartition ++ "\" \\")) ++
  optLine (d.ConsulNamespace != "") (flagLine "  -namespace=\"" (d.ConsulNamespace ++ "\" \\")) ++
  optLine d.MultiPort (adminBindLine d.EnvoyAdminPort) ++
  [flagLine "  -bootstrap > "
    (if d.MultiPort then
      "/consul/connect-inject/envoy-bootstrap-" ++ d.ServiceName ++ ".yaml"
    else "/consul/connect-inject/envoy-bootstrap.yaml")]

/-- The traffic-redirection step (container_init.go:476-510), rendered only
when transparent proxying is enabled and CNI is not. -/
def renderRedirectTraffic (d : InitContainerCommandData) : List String :=
  if d.EnableTransparentProxy && !d.EnableCNI then
    ["",
     "# Apply traffic redirection rules.",
     "/consul/connect-inject/consul connect redirect-traffic \\"] ++
    optLine (d.AuthMethod != "") "  -token-file=\"/consul/connect-inject/acl-token\" \\" ++
    optLine (d.ConsulPartition != "") (flagLine "  -partition=\"" (d.ConsulPartition ++ "\" \\")) ++
    optLine (d.ConsulNamespace != "") (flagLine "  -namespace=\"" (d.ConsulNamespace ++ "\" \\")) ++
    optLine (d.ConsulDNSClusterIP != "")
      (flagLine "  -consul-dns-ip=\"" (d.ConsulDNSClusterIP ++ "\" \\")) ++
    d.TProxyExcludeInboundPorts.map (fun p => flagLine "  -exclude-inbound-port=\"" (p ++ "\" \\")) ++
    d.TProxyExcludeOutboundPorts.map (fun p => flagLine "  -exclude-outbound-port=\"" (p ++ "\" \\")) ++
    d.TProxyExcludeOutboundCIDRs.map (fun c => flagLine "  -exclude-outbound-cidr=\"" (c ++ "\" \\")) ++
    d.TProxyExcludeUIDs.map (fun u => flagLine "  -exclude-uid=\"" (u ++ "\" \\")) ++
    ["  -proxy-id=\"$(cat /consul/connect-inject/proxyid)\" \\",
     flagLine "  -proxy-uid=" (toString d.EnvoyUID)]
  else []

/-- The full rendered init-container command. -/
def renderInitCommand (d : InitContainerCommandData) : List String :=
  renderConsulAddrExports d ++ renderConnectInit d ++ renderEnvoyBootstrap d ++
    renderRedirectTraffic d

/-- The security context for transparent proxying without CNI
(container_init.go:306-315): privileged root with `NET_ADMIN` added. -/
def privilegedRootContext : SecurityContext :=
  { runAsUser := rootUserAndGroupID
    runAsGroup := rootUserAndGroupID
    runAsNonRoot := false
    privileged := true
    capAdd := [netAdminCapability]
    capDrop := [] }

/-- The security context for transparent proxying with CNI
(container_init.go:317-325): fixed non-root uid/gid, unprivileged, all
capabilities dropped. -/
def nonRootInitContext : SecurityContext :=
  { runAsUser := initContainersUserAndGroupID
    runAsGroup := initContainersUserAndGroupID
    runAsNonRoot := true
    privileged := false
    capAdd := []
    capDrop := ["ALL"] }

/-- Embedding of `containerInit` (container_init.go:136-330): assembles the
command data, renders the command, names the container, and sets the
security context exactly when transparent proxying is enabled (privileged
root without CNI, fixed non-root with CNI). -/
def containerInit (w : MeshWebhook) (ns : K8sNamespace) (pod : Pod)
    (mpi : MultiPortInfo) : Except String ContainerSpec :=
  match buildInitContainerCommandData w ns pod mpi with
  | .error e => .error e
  | .ok (d, volMounts) =>
    .ok { name := if d.MultiPort then InjectInitContainerName ++ "-" ++ mpi.serviceName
                  else InjectInitContainerName
          cmdLines := renderInitCommand d
          volumeMounts := volMounts
          securityContext :=
            if d.EnableTransparentProxy then
              if !d.EnableCNI then some privilegedRootContext
              else some nonRootInitContext
            else none }

/-! ## C4: Prometheus TLS trio validation -/

theorem errMsg_pairwise_ne :
    errMsgCA ≠ errMsgCert ∧ errMsgCA ≠ errMsgKey ∧ errMsgCert ≠ errMsgKey := by
  refine ⟨?_, ?_, ?_⟩ <;> decide

/-- C4: the Prometheus TLS validation of the init-container plan errors
exactly when at least one of the four TLS annotation fields is non-empty and
the set is incomplete, producing exactly one of three messages in priority
order: missing CA (file and path) first, else missing cert, else missing
key; a complete CA+cert+key set, or no fields at all, never errors. -/
theorem c4_tls_trio_validation (pod : Pod) (ca cp cert key : String)
    (hca : ca = prometheusTLSField pod annotationPrometheusCAFile)
    (hcp : cp = prometheusTLSField pod annotationPrometheusCAPath)
    (hcert : cert = prometheusTLSField pod annotationPrometheusCertFile)
    (hkey : key = prometheusTLSField pod annotationPrometheusKeyFile) :
    (validatePrometheusTLS ca cp cert key = .error errMsgCA ↔
      (ca = "" ∧ cp = "" ∧ (cert ≠ "" ∨ key ≠ ""))) ∧
    (validatePrometheusTLS ca cp cert key = .error errMsgCert ↔
      ((ca ≠ "" ∨ cp ≠ "") ∧ cert = "")) ∧
    (validatePrometheusTLS ca cp cert key = .error errMsgKey ↔
      ((ca ≠ "" ∨ cp ≠ "") ∧ cert ≠ "" ∧ key = "")) ∧
    (validatePrometheusTLS ca cp cert key = .ok () ↔
      ((ca = "" ∧ cp = "" ∧ cert = "" ∧ key = "") ∨
        ((ca ≠ "" ∨ cp ≠ "") ∧ cert ≠ "" ∧ key ≠ ""))) := by
  clear hca hcp hcert hkey
  obtain ⟨d1, d2, d3⟩ := errMsg_pairwise_ne
  have d1' := d1.symm
  have d2' := d2.symm
  have d3' := d3.symm
  rcases eq_or_ne ca "" with h1 | h1 <;> rcases eq_or_ne cp "" with h2 | h2 <;>
    rcases eq_or_ne cert "" with h3 | h3 <;> rcases eq_or_ne key "" with h4 | h4 <;>
    simp_all [validatePrometheusTLS]

/-- Concrete check for C4: a cert file with no CA and no key yields the CA
error; CA file + cert + key validates; all-empty validates. -/
theorem c4_tls_trio_validation_witness :
    validatePrometheusTLS "" "" "cert.pem" "" = .error errMsgCA ∧
    validatePrometheusTLS "ca.pem" "" "cert.pem" "key.pem" = .ok () ∧
    validatePrometheusTLS "" "" "" "" = .ok () := by
  refine ⟨?_, ?_, ?_⟩
  · exact (c4_tls_trio_validation
      { name := "p", ns := "n",
        annotations := [(annotationPrometheusCertFile, "cert.pem")], labels := [],
        containers := [], serviceAccountName := "", hostIP := "", podIP := "" }
      "" "" "cert.pem" "" (by decide) (by decide) (by decide) (by decide)).1.mpr
      ⟨rfl, rfl, Or.inl (by decide)⟩
  · exact (c4_tls_trio_validation
      { name := "p", ns := "n",
        annotations := [(annotationPrometheusCAFile, "ca.pem"),
          (annotationPrometheusCertFile, "cert.pem"),
          (annotationPrometheusKeyFile, "key.pem")], labels := [],
        containers := [], serviceAccountName := "", hostIP := "", podIP := "" }
      "ca.pem" "" "cert.pem" "key.pem"
      (by decide) (by decide) (by decide) (by decide)).2.2.2.mpr
      (Or.inr ⟨Or.inl (by decide), by decide, by decide⟩)
  · exact (c4_tls_trio_validation
      { name := "p", ns := "n", annotations := [], labels := [],
        containers := [], serviceAccountName := "", hostIP := "", podIP := "" }
      "" "" "" "" (by decide) (by decide) (by decide) (by decide)).2.2.2.mpr
      (Or.inl ⟨rfl, rfl, rfl, rfl⟩)

/-! ## C7 / C9 helper lemmas -/

/-- Fields of the command data that are fixed by a successful synthesis. -/
theorem buildData_fields (w : MeshWebhook) (ns : K8sNamespace) (pod : Pod)
    (mpi : MultiPortInfo) (d : InitContainerCommandData) (vm : List VolumeMount)
    (h : buildInitContainerCommandData w ns pod mpi = .ok (d, vm)) :
    d.EnvoyAdminPort = 19000 + mpi.serviceIndex ∧
    d.MultiPort = (mpi.serviceName != "") ∧
    d.EnableCNI = w.EnableCNI ∧
    transparentProxyEnabled ns pod w.EnableTransparentProxy = .ok d.EnableTransparentProxy := by
  unfold buildInitContainerCommandData at h
  iterate 24 all_goals try split at h
  all_goals try simp_all
  iterate 24 all_goals try split at h
  all_goals try (obtain ⟨rfl, rfl⟩ := h)
  all_goals simp_all

/-- The four-character prefix of a `flagLine` is that of its fixed part. -/
theorem flagLine_data_take4 (pre rest : String) (h : 4 ≤ pre.data.length) :
    (flagLine pre rest).data.take 4 = pre.data.take 4 := by
  rw [flagLine, String.data_append, List.take_append_eq_append_take,
    Nat.sub_eq_zero_of_le h]
  simp

theorem adminBindLine_data_take4 (p : Nat) :
    (adminBindLine p).data.take 4 = [' ', ' ', '-', 'a'] := by
  rw [adminBindLine, flagLine_data_take4 _ _ (by decide)]
  decide

theorem mem_optLine {b : Bool} {l x : String} :
    x ∈ optLine b l ↔ (b = true ∧ x = l) := by
  cases b <;> simp [optLine]

/-- Outside multiport mode, no line of the rendered envoy-bootstrap step
starts with the admin-bind flag prefix. -/
theorem render_envoy_take4 (d : InitContainerCommandData) (hmp : d.MultiPort = false) :
    ∀ x ∈ renderEnvoyBootstrap d, x.data.take 4 ≠ [' ', ' ', '-', 'a'] := by
  intro x hx
  simp only [renderEnvoyBootstrap, hmp, Bool.false_eq_true, if_false, List.mem_append,
    List.mem_cons, List.not_mem_nil, or_false, mem_optLine, false_and] at hx
  iterate 6 all_goals try split at hx
  all_goals simp only [List.mem_append, List.mem_cons, List.not_mem_nil, or_false,
    mem_optLine, false_and, false_or, or_false] at hx
  all_goals
    repeat' first
      | (rcases hx with hx | hx)
      | (obtain ⟨-, rfl⟩ := hx)
      | (obtain rfl := hx)
  all_goals first
    | (rw [flagLine_data_take4 _ _ (by decide)]; decide)
    | decide

/-- The admin-bind line occurs in the rendered envoy-bootstrap step exactly
in multiport mode. -/
theorem adminBindLine_mem_iff (d : InitContainerCommandData) :
    adminBindLine d.EnvoyAdminPort ∈ renderEnvoyBootstrap d ↔ d.MultiPort = true := by
  constructor
  · intro hmem
    by_contra hmp
    simp only [Bool.not_eq_true] at hmp
    exact render_envoy_take4 d hmp _ hmem (adminBindLine_data_take4 d.EnvoyAdminPort)
  · intro hmp
    simp [renderEnvoyBootstrap, mem_optLine, hmp]

/-! ## C7: multiport Envoy admin port -/

/-- C7: a successfully synthesized plan's Envoy admin port is `19000 +
serviceIndex`; the `-admin-bind=127.0.0.1:<port>` line is rendered exactly
in multiport mode; and two plans for the same pod with distinct service
indices get distinct admin ports. -/
theorem c7_multiport_admin_port :
    (∀ (w : MeshWebhook) (ns : K8sNamespace) (pod : Pod) (mpi : MultiPortInfo)
        (d : InitContainerCommandData) (vm : List VolumeMount),
      buildInitContainerCommandData w ns pod mpi = .ok (d, vm) →
      d.EnvoyAdminPort = 19000 + mpi.serviceIndex ∧
      (adminBindLine d.EnvoyAdminPort ∈ renderEnvoyBootstrap d ↔ d.MultiPort = true)) ∧
    (∀ (w : MeshWebhook) (ns : K8sNamespace) (pod : Pod) (mpi mpi' : MultiPortInfo)
        (d d' : InitContainerCommandData) (vm vm' : List VolumeMount),
      buildInitContainerCommandData w ns pod mpi = .ok (d, vm) →
      buildInitContainerCommandData w ns pod mpi' = .ok (d', vm') →
      mpi.serviceIndex ≠ mpi'.serviceIndex →
      d.EnvoyAdminPort ≠ d'.EnvoyAdminPort) := by
  constructor
  · intro w ns pod mpi d vm h
    obtain ⟨h1, -, -, -⟩ := buildData_fields w ns pod mpi d vm h
    exact ⟨h1, adminBindLine_mem_iff d⟩
  · intro w ns pod mpi mpi' d d' vm vm' h h' hne
    obtain ⟨h1, -, -, -⟩ := buildData_fields w ns pod mpi d vm h
    obtain ⟨h1', -, -, -⟩ := buildData_fields w ns pod mpi' d' vm' h'
    rw [h1, h1']
    omega

/-- Concrete inputs used by the witnesses: a webhook with trivial external
collaborators, an empty namespace and a bare pod. -/
def wWitness : MeshWebhook :=
  { AuthMethod := "", ConsulPartition := "", EnableK8SNSMirroring := false,
    ConsulCACert := "", EnableTransparentProxy := false, EnableConsulDNS := false,
    EnableCNI := false, ResourcePrefix := "consul", ConsulAPITimeout := "5s",
    ImageConsulK8S := "img",
    metricsCfg :=
      { shouldRunMerged := fun _ => .ok false
        scrapePathOf := fun _ => ""
        mergedPortOf := fun _ => .ok "" }
    consulNamespaceOf := fun _ => ""
    envLookup := fun _ => "" }

def nsWitness : K8sNamespace := ⟨"default", []⟩

def podWitness : Pod :=
  { name := "pod1", ns := "default", annotations := [], labels := [],
    containers := [], serviceAccountName := "", hostIP := "10.0.0.1",
    podIP := "10.1.0.1" }

/-- A junk command-data record used as a fallback when projecting a known-ok
synthesis result. -/
def emptyCommandData : InitContainerCommandData :=
  { ServiceName := "", ServiceAccountName := "", AuthMethod := "",
    ConsulPartition := "", ConsulNamespace := "", NamespaceMirroringEnabled := false,
    ConsulCACert := "", EnableMetrics := false, PrometheusScrapePath := "",
    PrometheusBackendPort := "", PrometheusCAFile := "", PrometheusCAPath := "",
    PrometheusCertFile := "", PrometheusKeyFile := "", EnvoyUID := 0,
    EnableTransparentProxy := false, EnableCNI := false,
    TProxyExcludeInboundPorts := [], TProxyExcludeOutboundPorts := [],
    TProxyExcludeOutboundCIDRs := [], TProxyExcludeUIDs := [],
    ConsulDNSClusterIP := "", MultiPort := false, EnvoyAdminPort := 0,
    BearerTokenFile := "", ConsulAPITimeout := "" }

def mpiWeb : MultiPortInfo := ⟨"web", 1⟩
def mpiWebAdmin : MultiPortInfo := ⟨"web-admin", 2⟩

def dWeb : InitContainerCommandData :=
  match buildInitContainerCommandData wWitness nsWitness podWitness mpiWeb with
  | .ok (d, _) => d
  | .error _ => emptyCommandData

def dWebAdmin : InitContainerCommandData :=
  match buildInitContainerCommandData wWitness nsWitness podWitness mpiWebAdmin with
  | .ok (d, _) => d
  | .error _ => emptyCommandData

def vmWitness : List VolumeMount :=
  [⟨"consul-connect-inject-data", "/consul/connect-inject"⟩]

/-- Concrete check for C7: the multiport services `web` (index 1) and
`web-admin` (index 2) synthesize admin ports 19001 and 19002, the admin-bind
line is rendered, and the ports differ. -/
theorem c7_multiport_admin_port_witness :
    dWeb.EnvoyAdminPort = 19000 + 1 ∧
    adminBindLine dWeb.EnvoyAdminPort ∈ renderEnvoyBootstrap dWeb ∧
    dWeb.EnvoyAdminPort ≠ dWebAdmin.EnvoyAdminPort :=
  have h : buildInitContainerCommandData wWitness nsWitness podWitness mpiWeb =
      .ok (dWeb, vmWitness) := rfl
  have h' : buildInitContainerCommandData wWitness nsWitness podWitness mpiWebAdmin =
      .ok (dWebAdmin, vmWitness) := rfl
  have r := c7_multiport_admin_port.1 wWitness nsWitness podWitness mpiWeb dWeb vmWitness h
  ⟨r.1, r.2.mpr rfl,
    c7_multiport_admin_port.2 wWitness nsWitness podWitness mpiWeb mpiWebAdmin
      dWeb dWebAdmin vmWitness vmWitness h h' (by decide)⟩

/-! ## C9: init container security context -/

/-- C9: for a successfully synthesized init container, transparent proxying
without CNI yields a privileged root security context with `NET_ADMIN`
added; transparent proxying with CNI yields an unprivileged fixed non-root
context with all capabilities dropped; and without transparent proxying no
security context is set. -/
theorem c9_security_context (w : MeshWebhook) (ns : K8sNamespace) (pod : Pod)
    (mpi : MultiPortInfo) (c : ContainerSpec) (tp : Bool)
    (hok : containerInit w ns pod mpi = .ok c)
    (htp : transparentProxyEnabled ns pod w.EnableTransparentProxy = .ok tp) :
    (tp = true → w.EnableCNI = false → c.securityContext = some privilegedRootContext) ∧
    (tp = true → w.EnableCNI = true → c.securityContext = some nonRootInitContext) ∧
    (tp = false → c.securityContext = none) := by
  unfold containerInit at hok
  cases hb : buildInitContainerCommandData w ns pod mpi with
  | error e => rw [hb] at hok; simp at hok
  | ok p =>
    obtain ⟨d, vm⟩ := p
    rw [hb] at hok
    simp only [Except.ok.injEq] at hok
    obtain ⟨-, -, hcni, htp'⟩ := buildData_fields w ns pod mpi d vm hb
    rw [htp] at htp'
    simp only [Except.ok.injEq] at htp'
    subst htp'
    subst hok
    refine ⟨?_, ?_, ?_⟩ <;> intro h1 <;> try intro h2
    · rw [← hcni] at h2
      simp [h1, h2]
    · rw [← hcni] at h2
      simp [h1, h2]
    · simp [h1]

def w9 : MeshWebhook :=
  { wWitness with EnableTransparentProxy := true, EnableCNI := false }

def mpiSingle : MultiPortInfo := ⟨"", 0⟩

def c9container : ContainerSpec :=
  match containerInit w9 nsWitness podWitness mpiSingle with
  | .ok c => c
  | .error _ => { name := "", cmdLines := [], volumeMounts := [], securityContext := none }

/-- Concrete check for C9: with transparent proxying globally enabled and
CNI disabled, the synthesized container runs privileged as root with
`NET_ADMIN`. -/
theorem c9_security_context_witness :
    c9container.securityContext = some privilegedRootContext :=
  have hok : containerInit w9 nsWitness podWitness mpiSingle = .ok c9container := rfl
  have htp : transparentProxyEnabled nsWitness podWitness w9.EnableTransparentProxy =
      .ok true := rfl
  (c9_security_context w9 nsWitness podWitness mpiSingle c9container true hok htp).1 rfl rfl

/-- Decidable equality for `Except` results with decidable components. -/
instance exceptDecEq {e a : Type} [DecidableEq e] [DecidableEq a] :
    DecidableEq (Except e a) := fun x y =>
  match x, y with
  | .error u, .error v => decidable_of_iff (u = v) (by simp)
  | .error _, .ok _ => isFalse (fun h => Except.noConfusion h)
  | .ok _, .error _ => isFalse (fun h => Except.noConfusion h)
  | .ok u, .ok v => decidable_of_iff (u = v) (by simp)

theorem isOk_if_ok {e a : Type} {c : Prop} [Decidable c] (u v : a) :
    (if c then Except.ok u else Except.ok v : Except e a).isOk = true := by
  split <;> rfl

/-! ## Endpoints Reconciler data model (`endpoints_controller.go`) -/

/-- A Consul upstream (the `api.Upstream` fields the code sets). -/
structure Upstream where
  DestinationType : String
  DestinationNamespace : String
  DestinationName : String
  Datacenter : String
  LocalBindPort : Int
  deriving DecidableEq, Repr

def UpstreamDestTypeService : String := "service"
def UpstreamDestTypePreparedQuery : String := "prepared_query"
def MeshGatewayModeLocal : String := "local"
def MeshGatewayModeRemote : String := "remote"

/-- A health check attached to a registration (the fields the code sets). -/
structure ServiceCheck where
  checkName : String
  tcp : String
  interval : String
  deregisterCriticalServiceAfter : String
  aliasService : String
  deriving DecidableEq, Repr

/-- The sidecar proxy configuration (`api.AgentServiceConnectProxyConfig`). -/
structure ProxyConfig where
  DestinationServiceName : String
  DestinationServiceID : String
  LocalServiceAddress : String
  LocalServicePort : Int
  Upstreams : List Upstream
  deriving DecidableEq, Repr

/-- An `api.AgentServiceRegistration` (the fields the code sets). -/
structure AgentServiceRegistration where
  Kind : String
  ID : String
  Name : String
  Port : Int
  Address : String
  Meta : List (String × String)
  Tags : List String
  Proxy : Option ProxyConfig
  Checks : List ServiceCheck
  deriving DecidableEq, Repr

/-- The outcome of the `ConfigEntries().Get(ProxyDefaults, global)` call in
`processUpstreams`: the entry exists and carries a mesh-gateway mode, the
store answered 404 (entry absent; in Go, an error whose text contains
"Unexpected response code: 404"), or the call failed to reach Consul (any
other error). -/
inductive ProxyDefaultsResult where
  | found (meshGatewayMode : String)
  | notFound
  | unreachable
  deriving DecidableEq, Repr

/-- The `EndpointsController` fields the embedded logic reads. The allow and
deny sets model the `mapset.Set` values; `proxyDefaults` models the response
of the Consul client used for the mesh-gateway-mode check. -/
structure EndpointsController where
  AllowK8sNamespacesSet : List String
  DenyK8sNamespacesSet : List String
  ReleaseName : String
  ReleaseNamespace : String
  proxyDefaults : ProxyDefaultsResult
  deriving DecidableEq, Repr

/-- Modelled from the spec: `portValue` is defined outside the provided
sources. It resolves a port reference against the pod's named container
ports, else parses it as a number; a reference that is neither a declared
port name nor a number fails (boolean flag) with value 0. -/
def portValue (pod : Pod) (value : String) : Int × Bool :=
  match (pod.containers.flatMap (fun c => c.ports)).find? (fun p => p.portName = value) with
  | some p => (p.containerPort, false)
  | none =>
    match parseInt value with
    | some n => (n, false)
    | none => (0, true)

/-- Go slice indexing: out-of-range access is a runtime panic, modelled as a
distinguished error. -/
def goIndexStr (l : List String) (i : Nat) : Except String String :=
  match l.get? i with
  | some v => .ok v
  | none => .error "panic: runtime error: index out of range"

/-- Embedding of one iteration of the upstream-annotation loop of
`processUpstreams` (endpoints_controller.go:317-372): a `prepared_query`
entry takes the query name and port reference from the remaining tokens;
otherwise the tokens are service name, port reference and optional
datacenter, and a datacenter triggers the ProxyDefaults mesh-gateway-mode
check (404 and an incompatible mode are hard errors; any other failure to
reach Consul is swallowed). The port-resolution error is discarded, and the
entry yields an upstream only when the resolved port is positive. -/
def processUpstreamEntry (r : EndpointsController) (pod : Pod) (raw : String) :
    Except String (Option Upstream) :=
  let parts := splitN3Colon raw
  if trimSpace (parts.headD "") = "prepared_query" then
    match goIndexStr parts 2, goIndexStr parts 1 with
    | .ok p2, .ok p1 =>
      let port := (portValue pod (trimSpace p2)).1
      let preparedQuery := trimSpace p1
      if port > 0 then
        .ok (some { DestinationType := UpstreamDestTypePreparedQuery,
                    DestinationNamespace := "", DestinationName := preparedQuery,
                    Datacenter := "", LocalBindPort := port })
      else .ok none
    | .error e, _ => .error e
    | _, .error e => .error e
  else
    match goIndexStr parts 1 with
    | .error e => .error e
    | .ok p1 =>
      let port := (portValue pod (trimSpace p1)).1
      let serviceName := trimSpace (parts.headD "")
      let datacenter := if parts.length > 2 then trimSpace (parts.getD 2 "") else ""
      let gatewayCheck : Except String Unit :=
        if parts.length > 2 then
          match r.proxyDefaults with
          | .notFound =>
            .error ("upstream \"" ++ raw ++
              "\" is invalid: there is no ProxyDefaults config to set mesh gateway mode")
          | .found mode =>
            if mode ≠ MeshGatewayModeLocal ∧ mode ≠ MeshGatewayModeRemote then
              .error ("upstream \"" ++ raw ++
                "\" is invalid: ProxyDefaults mesh gateway mode is neither \"local\" nor \"remote\"")
            else .ok ()
          | .unreachable => .ok ()
        else .ok ()
      match gatewayCheck with
      | .error e => .error e
      | .ok _ =>
        if port > 0 then
          .ok (some { DestinationType := UpstreamDestTypeService,
                      DestinationNamespace := "", DestinationName := serviceName,
                      Datacenter := datacenter, LocalBindPort := port })
        else .ok none

/-- Embedding of `processUpstreams` (endpoints_controller.go:314-376): the
comma-separated upstream annotation entries are processed in order; an
entry's upstream is appended only when produced. -/
def processUpstreams (r : EndpointsController) (pod : Pod) :
    Except String (List Upstream) :=
  match lookupStr pod.annotations annotationUpstreams with
  | some raw =>
    if raw != "" then
      (splitChar ',' raw).foldlM (fun acc entry =>
        match processUpstreamEntry r pod entry with
        | .error e => .error e
        | .ok none => .ok acc
        | .ok (some u) => .ok (acc ++ [u])) []
    else .ok []
  | none => .ok []

/-- Embedding of the service-port resolution at the top of
`createServiceRegistrations` (endpoints_controller.go:140-150): the
resolution error is examined only when the resolved port is positive. -/
def resolveServicePort (pod : Pod) : Except String Int :=
  match lookupStr pod.annotations annotationPort with
  | some raw =>
    if raw != "" then
      let pv := portValue pod raw
      if pv.1 > 0 then
        (if pv.2 then .error "strconv.ParseInt: invalid syntax" else .ok pv.1)
      else .ok 0
    else .ok 0
  | none => .ok 0

/-- Embedding of `createServiceRegistrations`
(endpoints_controller.go:139-244): builds the service and sidecar-proxy
registrations from the pod and the owning Endpoints object. The service
metadata assoc list is built with Go map write semantics (later writes for
the same key override). -/
def createServiceRegistrations (r : EndpointsController) (pod : Pod)
    (serviceEndpoints : Endpoints) :
    Except String (AgentServiceRegistration × AgentServiceRegistration) :=
  match resolveServicePort pod with
  | .error e => .error e
  | .ok servicePort =>
  let serviceName :=
    match lookupStr pod.annotations annotationService with
    | some s => if s != "" then s else serviceEndpoints.name
    | none => serviceEndpoints.name
  let serviceID := pod.name ++ "-" ++ serviceName
  let meta :=
    pod.annotations.foldl (fun m kv =>
      if goHasPrefix kv.1 annotationMeta && (goTrimPrefix kv.1 annotationMeta != "") then
        assocSet m (goTrimPrefix kv.1 annotationMeta) kv.2
      else m)
      [(MetaKeyPodName, pod.name), (MetaKeyKubeServiceName, serviceEndpoints.name),
       (MetaKeyKubeNS, serviceEndpoints.ns)]
  let tags :=
    (match lookupStr pod.annotations annotationTags with
     | some raw => if raw != "" then splitChar ',' raw else []
     | none => []) ++
    (match lookupStr pod.annotations annotationConnectTags with
     | some raw => if raw != "" then splitChar ',' raw else []
     | none => [])
  match processUpstreams r pod with
  | .error e => .error e
  | .ok upstreams =>
  let service : AgentServiceRegistration :=
    { Kind := "", ID := serviceID, Name := serviceName, Port := servicePort,
      Address := pod.podIP, Meta := meta, Tags := tags, Proxy := none, Checks := [] }
  let proxyServiceName := serviceName ++ "-sidecar-proxy"
  let proxyService : AgentServiceRegistration :=
    { Kind := "connect-proxy", ID := pod.name ++ "-" ++ proxyServiceName,
      Name := proxyServiceName, Port := 20000, Address := pod.podIP, Meta := meta,
      Tags := tags,
      Proxy := some
        { DestinationServiceName := serviceName, DestinationServiceID := serviceID,
          LocalServiceAddress := if servicePort > 0 then "127.0.0.1" else "",
          LocalServicePort := if servicePort > 0 then servicePort else 0,
          Upstreams := upstreams },
      Checks :=
        [{ checkName := "Proxy Public Listener", tcp := pod.podIP ++ ":20000",
           interval := "10s", deregisterCriticalServiceAfter := "10m", aliasService := "" },
         { checkName := "Destination Alias", tcp := "", interval := "",
           deregisterCriticalServiceAfter := "", aliasService := serviceID }] }
  .ok (service, proxyService)

/-- Embedding of `hasBeenInjected` (endpoints_controller.go:420-427). -/
def hasBeenInjected (pod : Pod) : Bool :=
  match lookupStr pod.annotations annotationStatus with
  | some anno => anno == injected
  | none => false

/-- Embedding of `shouldIgnore` (endpoints_controller.go:398-417). -/
def shouldIgnore (ns : String) (denySet allowSet : List String) : Bool :=
  if ns = "kube-system" || ns = "kube-public" || ns = "local-path-storage" then true
  else if denySet.contains ns then true
  else if !allowSet.contains "*" && !allowSet.contains ns then true
  else false

/-! ## Reconciler state: agents and the call trace

External mesh agents are modelled as a list of per-node agent states keyed
by IP (both the agent local to a workload pod's host and the agent pods the
deregistration path lists are drawn from this world); agent HTTP calls are
modelled as succeeding, so a pass aborts only on the embedded error paths.
The trace of register/deregister calls a pass issues is recorded. -/

/-- One registered service instance as an agent stores it (the fields the
deregistration sweep reads: address and metadata). -/
structure AgentService where
  Address : String
  Meta : List (String × String)
  deriving DecidableEq, Repr

/-- The state of one Consul agent: its IP and its service instances keyed by
service ID (a Go map, so IDs are unique per agent). -/
structure AgentState where
  ip : String
  services : List (String × AgentService)
  deriving DecidableEq, Repr

/-- One agent API call issued during a pass. -/
inductive AgentCall where
  | register (agentIP : String) (reg : AgentServiceRegistration)
  | deregister (agentIP : String) (svcID : String)
  deriving DecidableEq, Repr

/-- The effect of `client.Agent().ServiceRegister(reg)` on the agent at
`ip`: the instance stored under `reg.ID` is created or replaced. -/
def registerService (world : List AgentState) (ip : String)
    (reg : AgentServiceRegistration) : List AgentState :=
  world.map (fun a =>
    if a.ip = ip then
      { a with services := (a.services.filter (fun p => p.1 ≠ reg.ID)) ++
          [(reg.ID, { Address := reg.Address, Meta := reg.Meta })] }
    else a)

/-- The metadata filter of `deregisterServiceOnAllAgents`
(endpoints_controller.go:283): a Go map read yields the zero value for a
missing key. -/
def metaMatches (meta : List (String × String)) (svcName nsName : String) : Bool :=
  ((lookupStr meta MetaKeyKubeServiceName).getD "" == svcName) &&
  ((lookupStr meta MetaKeyKubeNS).getD "" == nsName)

/-- Embedding of the per-agent body of `deregisterServiceOnAllAgents`
(endpoints_controller.go:274-308): fetch the instances matching the
k8s-service-name/k8s-namespace metadata, and deregister each one unless the
membership map is present and contains its address. -/
def deregisterOnAgent (k8sSvcName k8sSvcNamespace : String)
    (addressMap : Option (List String)) (a : AgentState) :
    AgentState × List AgentCall :=
  let svcs := a.services.filter (fun p => metaMatches p.2.Meta k8sSvcName k8sSvcNamespace)
  let toDereg := svcs.filter (fun p =>
    match addressMap with
    | some m => !m.contains p.2.Address
    | none => true)
  ({ a with services := a.services.filter (fun p => !(toDereg.map Prod.fst).contains p.1) },
   toDereg.map (fun p => AgentCall.deregister a.ip p.1))

/-- Embedding of `deregisterServiceOnAllAgents`
(endpoints_controller.go:256-310): every agent is visited in order; a `none`
membership map deregisters every matching instance, a present map only those
whose address is absent from it. -/
def deregisterServiceOnAllAgents (k8sSvcName k8sSvcNamespace : String)
    (addressMap : Option (List String)) (world : List AgentState) :
    List AgentState × List AgentCall :=
  (world.map (fun a => (deregisterOnAgent k8sSvcName k8sSvcNamespace addressMap a).1),
   world.flatMap (fun a => (deregisterOnAgent k8sSvcName k8sSvcNamespace addressMap a).2))

/-- The addition of an address to the endpoint membership map
(`endpointAddressMap[address.IP] = true`). -/
def insertAddr (m : List String) (ip : String) : List String :=
  if m.contains ip then m else m ++ [ip]

/-- Embedding of one iteration of the address loop of the found branch of
`Reconcile` (endpoints_controller.go:79-123): a pod-backed address is first
recorded in the membership map; then the pod is fetched (a missing pod
aborts the pass) and, only if it carries the injected status marker, its
registrations are built (aborting on error) and registered — service then
proxy — with the agent on the pod's host. -/
def processAddress (r : EndpointsController) (serviceEndpoints : Endpoints)
    (pods : List Pod) (st : List String × List AgentState × List AgentCall)
    (address : EndpointAddress) :
    Except String (List String × List AgentState × List AgentCall) :=
  match address.targetRef with
  | none => .ok st
  | some ref =>
    if ref.kind = "Pod" then
      let m' := insertAddr st.1 address.ip
      match pods.find? (fun p => p.name = ref.name && p.ns = ref.ns) with
      | none => .error ("failed to get pod from Kubernetes: " ++ ref.name)
      | some pod =>
        if hasBeenInjected pod then
          match createServiceRegistrations r pod serviceEndpoints with
          | .error e => .error e
          | .ok (svc, proxySvc) =>
            .ok (m',
              registerService (registerService st.2.1 pod.hostIP svc) pod.hostIP proxySvc,
              st.2.2 ++ [.register pod.hostIP svc, .register pod.hostIP proxySvc])
        else .ok (m', st.2.1, st.2.2)
    else .ok st

/-- The registration loop of the found branch of `Reconcile`
(endpoints_controller.go:75-124): all addresses of all subsets, ready and
not-ready alike, processed in order starting from an empty membership map. -/
def registerPhase (r : EndpointsController) (serviceEndpoints : Endpoints)
    (pods : List Pod) (world : List AgentState) :
    Except String (List String × List AgentState × List AgentCall) :=
  (serviceEndpoints.subsets.flatMap (fun s => s.addresses ++ s.notReadyAddresses)).foldlM
    (processAddress r serviceEndpoints pods) ([], world, [])

/-- Embedding of `Reconcile` (endpoints_controller.go:45-135): an ignored
namespace no-ops; a missing Endpoints object (IsNotFound) deregisters every
matching instance on all agents; otherwise every address is processed and
the sweep deregisters the matching instances absent from the membership
map. -/
def Reconcile (r : EndpointsController) (reqName reqNS : String)
    (endpointsObj : Option Endpoints) (pods : List Pod)
    (world : List AgentState) :
    Except String (List AgentState × List AgentCall) :=
  if shouldIgnore reqNS r.DenyK8sNamespacesSet r.AllowK8sNamespacesSet then
    .ok (world, [])
  else
    match endpointsObj with
    | none =>
      .ok (deregisterServiceOnAllAgents reqName reqNS none world)
    | some serviceEndpoints =>
      match registerPhase r serviceEndpoints pods world with
      | .error e => .error e
      | .ok (addressMap, world1, calls1) =>
        let sweep := deregisterServiceOnAllAgents serviceEndpoints.name
          serviceEndpoints.ns (some addressMap) world1
        .ok (sweep.1, calls1 ++ sweep.2)

/-! ## C5: service-port resolution error handling -/

def rPlain : EndpointsController :=
  { AllowK8sNamespacesSet := ["*"], DenyK8sNamespacesSet := [],
    ReleaseName := "consul", ReleaseNamespace := "default",
    proxyDefaults := .unreachable }

def podPortBad : Pod :=
  { name := "badport-pod", ns := "default",
    annotations := [(annotationPort, "not-a-port")], labels := [],
    containers := [], serviceAccountName := "", hostIP := "10.0.0.2",
    podIP := "10.1.0.2" }

def epWeb : Endpoints := ⟨"web", "default", []⟩

/-- C5 (evaluation at the failing input): a pod with a non-empty
service-port annotation that fails to resolve — `portValue` errors with a
non-positive value — does NOT make the builder error: the port-resolution
error is examined only under `port > 0`, so the registration is built
successfully with service port 0, contradicting the claimed error
propagation. -/
theorem c5_port_error_swallowed :
    (portValue podPortBad "not-a-port").2 = true ∧
    (createServiceRegistrations rPlain podPortBad epWeb).isOk = true ∧
    (createServiceRegistrations rPlain podPortBad epWeb).toOption.map
      (fun p => p.1.Port) = some 0 := by
  decide

/-! ## C6: mesh-gateway-mode check for datacenter upstreams -/

def rNotFound : EndpointsController :=
  { rPlain with proxyDefaults := .notFound }

def podUpDC : Pod :=
  { name := "c6pod", ns := "default",
    annotations := [(annotationUpstreams, "myapp:1234:dc2")], labels := [],
    containers := [], serviceAccountName := "", hostIP := "10.0.0.3",
    podIP := "10.1.0.3" }

/-- C6 counterexample: the claim says a failure to find the config entry is
swallowed, but a datacenter upstream with an absent ProxyDefaults entry
(404) is a hard error in the code. -/
theorem c6_counterexample_notFound_is_hard_error :
    rNotFound.proxyDefaults = .notFound ∧
    processUpstreams rNotFound podUpDC =
      .error "upstream \"myapp:1234:dc2\" is invalid: there is no ProxyDefaults config to set mesh gateway mode" := by
  decide

/-- C6 (amended): for an upstream entry naming a datacenter, the
mesh-gateway-mode check is a hard error when the ProxyDefaults entry is
absent (404) or exists with a mode that is neither local nor remote; any
other failure to reach the config store is swallowed. -/
theorem c6_gateway_check_amended (r : EndpointsController) (pod : Pod) (raw : String)
    (hnpq : trimSpace ((splitN3Colon raw).headD "") ≠ "prepared_query")
    (hdc : (splitN3Colon raw).length > 2) :
    (r.proxyDefaults = .unreachable → (processUpstreamEntry r pod raw).isOk = true) ∧
    (r.proxyDefaults = .notFound → (processUpstreamEntry r pod raw).isOk = false) ∧
    (∀ mode, r.proxyDefaults = .found mode →
      ((processUpstreamEntry r pod raw).isOk = true ↔
        (mode = MeshGatewayModeLocal ∨ mode = MeshGatewayModeRemote))) := by
  obtain ⟨x, hx⟩ : ∃ x, (splitN3Colon raw).get? 1 = some x :=
    ⟨_, List.get?_eq_get (by omega)⟩
  refine ⟨?_, ?_, ?_⟩
  · intro h
    simp only [processUpstreamEntry, goIndexStr, hx, if_neg hnpq, if_pos hdc, h]
    split <;> rfl
  · intro h
    simp only [processUpstreamEntry, goIndexStr, hx, if_neg hnpq, if_pos hdc, h]
    rfl
  · intro mode h
    simp only [processUpstreamEntry, goIndexStr, hx, if_neg hnpq, if_pos hdc, h]
    by_cases hm : mode = MeshGatewayModeLocal ∨ mode = MeshGatewayModeRemote
    · have hcond : ¬(mode ≠ MeshGatewayModeLocal ∧ mode ≠ MeshGatewayModeRemote) := by
        rcases hm with hm | hm <;> simp [hm]
      rw [if_neg hcond]
      constructor
      · intro _
        exact hm
      · intro _
        exact isOk_if_ok _ _
    · push_neg at hm
      rw [if_pos ⟨hm.1, hm.2⟩]
      constructor
      · intro h'
        exact Bool.noConfusion h'
      · intro h'
        rcases h' with h' | h' <;> [exact absurd h' hm.1; exact absurd h' hm.2]

/-- Concrete check for the amended C6: the same datacenter upstream entry is
accepted when Consul is unreachable or the mode is local, and rejected when
the entry is absent. -/
theorem c6_gateway_check_amended_witness :
    (processUpstreamEntry rPlain podWitness "svc2:8080:dc3").isOk = true ∧
    (processUpstreamEntry rNotFound podWitness "svc2:8080:dc3").isOk = false ∧
    (processUpstreamEntry { rPlain with proxyDefaults := .found "local" }
      podWitness "svc2:8080:dc3").isOk = true := by
  refine ⟨?_, ?_, ?_⟩
  · exact (c6_gateway_check_amended rPlain podWitness "svc2:8080:dc3"
      (by decide) (by decide)).1 rfl
  · exact (c6_gateway_check_amended rNotFound podWitness "svc2:8080:dc3"
      (by decide) (by decide)).2.1 rfl
  · exact ((c6_gateway_check_amended { rPlain with proxyDefaults := .found "local" }
      podWitness "svc2:8080:dc3" (by decide) (by decide)).2.2 "local" rfl).mpr
      (Or.inl rfl)

/-! ## C10: silently dropped unresolvable upstream ports -/

def podUpBadPort : Pod :=
  { name := "c10pod", ns := "default",
    annotations := [(annotationUpstreams, "svc:nope:dc2")], labels := [],
    containers := [], serviceAccountName := "", hostIP := "10.0.0.4",
    podIP := "10.1.0.4" }

/-- C10 counterexample: an entry whose port token fails to resolve is not
always silently dropped with success — when the entry also names a
datacenter, the mesh-gateway check runs first and can fail the whole call
(here: ProxyDefaults absent), so `processUpstreams` errors rather than
returning success with the entry omitted. -/
theorem c10_counterexample_gateway_error_first :
    (portValue podUpBadPort "nope").2 = true ∧
    (processUpstreams rNotFound podUpBadPort).isOk = false := by
  decide

/-- C10 (amended): a non-prepared-query upstream entry whose port token
fails to resolve to a positive port is silently dropped — no port-resolution
error is propagated and the entry yields no upstream — provided the entry
either names no datacenter or its mesh-gateway check passes (store
unreachable, or mode local/remote). -/
theorem c10_port_failure_dropped_amended (r : EndpointsController) (pod : Pod)
    (entry ptoken : String)
    (hnpq : trimSpace ((splitN3Colon entry).headD "") ≠ "prepared_query")
    (hp1 : (splitN3Colon entry).get? 1 = some ptoken)
    (hport : (portValue pod (trimSpace ptoken)).1 ≤ 0)
    (hgw : (splitN3Colon entry).length ≤ 2 ∨ r.proxyDefaults = .unreachable ∨
      r.proxyDefaults = .found MeshGatewayModeLocal ∨
      r.proxyDefaults = .found MeshGatewayModeRemote) :
    processUpstreamEntry r pod entry = .ok none := by
  rw [List.headD_eq_head?] at hnpq
  rw [List.get?_eq_getElem?] at hp1
  have hnpos : ¬((portValue pod (trimSpace ptoken)).1 > 0) := by omega
  rcases hgw with hgw | hgw | hgw | hgw
  · have hlen : ¬((splitN3Colon entry).length > 2) := by omega
    simp [processUpstreamEntry, goIndexStr, hp1, hnpq, hlen, hnpos]
  · simp [processUpstreamEntry, goIndexStr, hp1, hnpq, hgw, hnpos]
  · simp [processUpstreamEntry, goIndexStr, hp1, hnpq, hgw, hnpos,
      MeshGatewayModeLocal, MeshGatewayModeRemote]
  · simp [processUpstreamEntry, goIndexStr, hp1, hnpq, hgw, hnpos,
      MeshGatewayModeLocal, MeshGatewayModeRemote]

/-- Concrete check for the amended C10: a two-token entry with an
unresolvable port token yields no upstream and no error. -/
theorem c10_port_failure_dropped_amended_witness :
    processUpstreamEntry rPlain podWitness "svc:nope" = .ok none :=
  c10_port_failure_dropped_amended rPlain podWitness "svc:nope" "nope"
    (by decide) (by decide) (by decide) (Or.inl (by decide))

/-! ## C3: deleted Endpoints object deregisters everything matching -/

/-- C3: when the Endpoints object is gone (IsNotFound), a non-ignored pass
succeeds, issuing on every agent a deregister call for every service
instance whose metadata matches the k8s service name and namespace, and no
register calls at all. -/
theorem c3_deleted_endpoints_deregisters_all (r : EndpointsController)
    (reqName reqNS : String) (pods : List Pod) (world : List AgentState)
    (hig : shouldIgnore reqNS r.DenyK8sNamespacesSet r.AllowK8sNamespacesSet = false) :
    Reconcile r reqName reqNS none pods world =
      .ok (world.map (fun a => (deregisterOnAgent reqName reqNS none a).1),
        world.flatMap (fun a =>
          (a.services.filter (fun p => metaMatches p.2.Meta reqName reqNS)).map
            (fun p => AgentCall.deregister a.ip p.1))) ∧
    (∀ ip reg, AgentCall.register ip reg ∉
      world.flatMap (fun a =>
        (a.services.filter (fun p => metaMatches p.2.Meta reqName reqNS)).map
          (fun p => AgentCall.deregister a.ip p.1))) := by
  constructor
  · simp only [Reconcile, hig, Bool.false_eq_true, if_false,
      deregisterServiceOnAllAgents, deregisterOnAgent, List.filter_true]
  · intro ip reg hmem
    simp only [List.mem_flatMap, List.mem_map] at hmem
    obtain ⟨a, -, p, -, hp⟩ := hmem
    exact AgentCall.noConfusion hp

def metaWebDefault (podName : String) : List (String × String) :=
  [(MetaKeyPodName, podName), (MetaKeyKubeServiceName, "web"), (MetaKeyKubeNS, "default")]

def worldC3 : List AgentState :=
  [⟨"10.0.0.5", [("podA-web", ⟨"1.1.1.1", metaWebDefault "podA"⟩),
                 ("other-svc", ⟨"1.1.1.9", [(MetaKeyKubeServiceName, "other")]⟩)]⟩,
   ⟨"10.0.0.6", [("podB-web", ⟨"1.1.1.2", metaWebDefault "podB"⟩)]⟩]

/-- Concrete check for C3: with instances of `web`/`default` on two agents
plus an unrelated instance, the deleted-endpoints pass deregisters exactly
the matching instances on both agents and nothing else. -/
theorem c3_deleted_endpoints_deregisters_all_witness :
    Reconcile rPlain "web" "default" none [] worldC3 =
      .ok (worldC3.map (fun a => (deregisterOnAgent "web" "default" none a).1),
        worldC3.flatMap (fun a =>
          (a.services.filter (fun p => metaMatches p.2.Meta "web" "default")).map
            (fun p => AgentCall.deregister a.ip p.1))) ∧
    worldC3.flatMap (fun a =>
      (a.services.filter (fun p => metaMatches p.2.Meta "web" "default")).map
        (fun p => AgentCall.deregister a.ip p.1)) =
      [.deregister "10.0.0.5" "podA-web", .deregister "10.0.0.6" "podB-web"] :=
  ⟨(c3_deleted_endpoints_deregisters_all rPlain "web" "default" [] worldC3 (by decide)).1,
   by decide⟩

/-! ## C2: the found-branch sweep -/

/-- With a present membership map and unique instance IDs, the per-agent
sweep keeps exactly the instances that do not (match the metadata and have
an address outside the map), and emits one deregister call per removed
instance. -/
theorem deregisterOnAgent_some (k n : String) (m : List String) (a : AgentState)
    (hnd : (a.services.map Prod.fst).Nodup) :
    deregisterOnAgent k n (some m) a =
      ({ a with services := (a.services.filter
          (fun p => !(metaMatches p.2.Meta k n && !m.contains p.2.Address))) },
       (a.services.filter (fun p => metaMatches p.2.Meta k n &&
           !m.contains p.2.Address)).map
         (fun p => AgentCall.deregister a.ip p.1)) := by
  unfold deregisterOnAgent
  dsimp only
  have hff : (a.services.filter (fun p => metaMatches p.2.Meta k n)).filter
      (fun p => !m.contains p.2.Address) =
      a.services.filter (fun p => metaMatches p.2.Meta k n && !m.contains p.2.Address) := by
    rw [List.filter_filter]
    exact List.filter_congr (fun p _ => Bool.and_comm _ _)
  rw [hff, Prod.mk.injEq]
  refine ⟨?_, rfl⟩
  simp only [AgentState.mk.injEq, true_and]
  refine List.filter_congr ?_
  intro p hp
  have hpt : (((a.services.filter (fun p => metaMatches p.2.Meta k n &&
      !m.contains p.2.Address)).map Prod.fst).contains p.1) =
      (metaMatches p.2.Meta k n && !m.contains p.2.Address) := by
    by_cases hpred : (metaMatches p.2.Meta k n && !m.contains p.2.Address) = true
    · rw [hpred]
      have hpF : p ∈ a.services.filter
          (fun p => metaMatches p.2.Meta k n && !m.contains p.2.Address) :=
        List.mem_filter.mpr ⟨hp, hpred⟩
      have hmem : p.1 ∈ (a.services.filter
          (fun p => metaMatches p.2.Meta k n && !m.contains p.2.Address)).map Prod.fst :=
        List.mem_map.mpr ⟨p, hpF, rfl⟩
      simpa using hmem
    · rw [Bool.not_eq_true] at hpred
      rw [hpred]
      have hnotmem : p.1 ∉ (a.services.filter
          (fun p => metaMatches p.2.Meta k n && !m.contains p.2.Address)).map Prod.fst := by
        intro hc
        obtain ⟨q, hqF, hq1⟩ := List.mem_map.mp hc
        obtain ⟨hqa, hqpred⟩ := List.mem_filter.mp hqF
        have hqp : q = p := List.inj_on_of_nodup_map hnd hqa hp hq1
        rw [hqp] at hqpred
        rw [hqpred] at hpred
        exact Bool.noConfusion hpred
      simpa using hnotmem
  rw [hpt]

/-- The sweep over all agents, characterized per instance. -/
theorem deregisterAllAgents_some (k n : String) (m : List String)
    (world : List AgentState)
    (hnd : ∀ a ∈ world, (a.services.map Prod.fst).Nodup) :
    deregisterServiceOnAllAgents k n (some m) world =
      (world.map (fun a => { a with services := (a.services.filter
          (fun p => !(metaMatches p.2.Meta k n && !m.contains p.2.Address))) }),
       world.flatMap (fun a =>
         (a.services.filter (fun p => metaMatches p.2.Meta k n &&
             !m.contains p.2.Address)).map
           (fun p => AgentCall.deregister a.ip p.1))) := by
  unfold deregisterServiceOnAllAgents
  rw [Prod.mk.injEq]
  constructor
  · refine List.map_congr_left ?_
    intro a ha
    rw [deregisterOnAgent_some k n m a (hnd a ha)]
  · induction world with
    | nil => rfl
    | cons a rest ih =>
      simp only [List.flatMap_cons]
      rw [deregisterOnAgent_some k n m a (hnd a (List.mem_cons_self a rest)),
        ih (fun b hb => hnd b (List.mem_cons_of_mem a hb))]

/-- C2: a successful found-branch pass ends with the sweep: after the
registration loop produced membership map `addressMap`, mid-world `world1`
and trace `calls1`, the pass succeeds, the sweep emits a deregister call for
exactly those instances whose metadata matches the Endpoints object's
service name and namespace and whose address is absent from the map, and the
final world keeps exactly the other instances — in particular every
instance whose address is in the map stays registered. -/
theorem c2_sweep_deregisters_absent (r : EndpointsController)
    (reqName reqNS : String) (e : Endpoints) (pods : List Pod)
    (world : List AgentState) (addressMap : List String)
    (world1 : List AgentState) (calls1 : List AgentCall)
    (hig : shouldIgnore reqNS r.DenyK8sNamespacesSet r.AllowK8sNamespacesSet = false)
    (hreg : registerPhase r e pods world = .ok (addressMap, world1, calls1))
    (hnd : ∀ a ∈ world1, (a.services.map Prod.fst).Nodup) :
    Reconcile r reqName reqNS (some e) pods world =
      .ok (world1.map (fun a => { a with services := (a.services.filter
            (fun p => !(metaMatches p.2.Meta e.name e.ns &&
              !addressMap.contains p.2.Address))) }),
        calls1 ++ world1.flatMap (fun a =>
          (a.services.filter (fun p => metaMatches p.2.Meta e.name e.ns &&
              !addressMap.contains p.2.Address)).map
            (fun p => AgentCall.deregister a.ip p.1))) := by
  simp only [Reconcile, hig, Bool.false_eq_true, if_false, hreg]
  rw [deregisterAllAgents_some e.name e.ns addressMap world1 hnd]

def podA : Pod :=
  { name := "podA", ns := "default",
    annotations := [(annotationStatus, "injected")], labels := [],
    containers := [], serviceAccountName := "", hostIP := "10.0.0.1",
    podIP := "1.1.1.1" }

def podC : Pod :=
  { name := "podC", ns := "default",
    annotations := [(annotationStatus, "injected")], labels := [],
    containers := [], serviceAccountName := "", hostIP := "10.0.0.1",
    podIP := "1.1.1.3" }

/-- The endpoint set after the transition from `{A,B,C}` to `{A,C}`. -/
def eAC : Endpoints :=
  ⟨"web", "default",
    [⟨[⟨"1.1.1.1", some ⟨"Pod", "podA", "default"⟩⟩,
       ⟨"1.1.1.3", some ⟨"Pod", "podC", "default"⟩⟩], []⟩]⟩

/-- The agent world still holding instances for A, B and C. -/
def worldABC : List AgentState :=
  [⟨"10.0.0.1", [("podA-web", ⟨"1.1.1.1", metaWebDefault "podA"⟩),
                 ("podB-web", ⟨"1.1.1.2", metaWebDefault "podB"⟩),
                 ("podC-web", ⟨"1.1.1.3", metaWebDefault "podC"⟩)]⟩]

def regAC : List String × List AgentState × List AgentCall :=
  match registerPhase rPlain eAC [podA, podC] worldABC with
  | .ok t => t
  | .error _ => ([], [], [])

/-- Concrete check for C2: after `{A,B,C}` transitions to `{A,C}`, the pass
succeeds and the sweep deregisters exactly the instance at B's address,
leaving A's and C's instances registered. -/
theorem c2_sweep_deregisters_absent_witness :
    Reconcile rPlain "web" "default" (some eAC) [podA, podC] worldABC =
      .ok (regAC.2.1.map (fun a => { a with services := (a.services.filter
            (fun p => !(metaMatches p.2.Meta eAC.name eAC.ns &&
              !regAC.1.contains p.2.Address))) }),
        regAC.2.2 ++ regAC.2.1.flatMap (fun a =>
          (a.services.filter (fun p => metaMatches p.2.Meta eAC.name eAC.ns &&
              !regAC.1.contains p.2.Address)).map
            (fun p => AgentCall.deregister a.ip p.1))) ∧
    regAC.2.1.flatMap (fun a =>
      (a.services.filter (fun p => metaMatches p.2.Meta eAC.name eAC.ns &&
          !regAC.1.contains p.2.Address)).map
        (fun p => AgentCall.deregister a.ip p.1)) =
      [AgentCall.deregister "10.0.0.1" "podB-web"] :=
  ⟨c2_sweep_deregisters_absent rPlain "web" "default" eAC [podA, podC] worldABC
      regAC.1 regAC.2.1 regAC.2.2 (by decide) rfl (by decide),
   by decide⟩

/-! ## C8: membership-map accumulation and the inject-check -/

def podNoInject : Pod :=
  { name := "podN", ns := "default", annotations := [], labels := [],
    containers := [], serviceAccountName := "", hostIP := "10.0.0.7",
    podIP := "9.9.9.9" }

def eN : Endpoints :=
  ⟨"webN", "default", [⟨[⟨"9.9.9.9", some ⟨"Pod", "podN", "default"⟩⟩], []⟩]⟩

/-- C8 counterexample: a pod-backed address is recorded in the membership
map before the inject-check, so the final map of a successful pass does
contain the address of a pod lacking the injected marker. -/
theorem c8_counterexample_uninjected_address_in_map :
    hasBeenInjected podNoInject = false ∧
    registerPhase rPlain eN [podNoInject] [] = .ok (["9.9.9.9"], [], []) := by
  decide

theorem mem_insertAddr_self (m : List String) (ip : String) :
    ip ∈ insertAddr m ip := by
  unfold insertAddr
  split
  · next h => simpa using h
  · exact List.mem_append_right _ (List.mem_singleton.mpr rfl)

theorem mem_insertAddr_of_mem (m : List String) (ip x : String) (h : x ∈ m) :
    x ∈ insertAddr m ip := by
  unfold insertAddr
  split
  · exact h
  · exact List.mem_append_left _ h

/-- Per-step facts of the address loop: the membership map only grows, a
pod-backed address lands in the map whether or not the pod is injected, and
any new call in the trace is a registration on the host agent of an
injected pod. -/
theorem processAddress_step (r : EndpointsController) (e : Endpoints)
    (pods : List Pod) (st : List String × List AgentState × List AgentCall)
    (a : EndpointAddress) (st' : List String × List AgentState × List AgentCall)
    (h : processAddress r e pods st a = .ok st') :
    (∀ ip ∈ st.1, ip ∈ st'.1) ∧
    (∀ ref, a.targetRef = some ref → ref.kind = "Pod" → a.ip ∈ st'.1) ∧
    (∀ c ∈ st'.2.2, c ∈ st.2.2 ∨ ∃ pod ∈ pods, hasBeenInjected pod = true ∧
      ∃ reg, c = AgentCall.register pod.hostIP reg) := by
  unfold processAddress at h
  cases ha : a.targetRef with
  | none =>
    rw [ha] at h
    dsimp only at h
    simp only [Except.ok.injEq] at h
    subst h
    refine ⟨fun ip hip => hip, ?_, fun c hc => Or.inl hc⟩
    intro ref href
    cases href
  | some ref =>
    rw [ha] at h
    dsimp only at h
    by_cases hk : ref.kind = "Pod"
    · rw [if_pos hk] at h
      cases hfind : pods.find? (fun p => p.name = ref.name && p.ns = ref.ns) with
      | none => rw [hfind] at h; cases h
      | some pod =>
        rw [hfind] at h
        dsimp only at h
        have hpodmem : pod ∈ pods := List.mem_of_find?_eq_some hfind
        by_cases hinj : hasBeenInjected pod
        · rw [if_pos hinj] at h
          cases hcreate : createServiceRegistrations r pod e with
          | error err => rw [hcreate] at h; cases h
          | ok regs =>
            obtain ⟨svc, proxySvc⟩ := regs
            rw [hcreate] at h
            dsimp only at h
            simp only [Except.ok.injEq] at h
            subst h
            refine ⟨fun ip hip => mem_insertAddr_of_mem _ _ _ hip,
              fun ref' href' _ => mem_insertAddr_self _ _, fun c hc => ?_⟩
            rcases List.mem_append.mp hc with hc | hc
            · exact Or.inl hc
            · rcases List.mem_cons.mp hc with hc | hc
              · exact Or.inr ⟨pod, hpodmem, hinj, svc, hc⟩
              · rcases List.mem_cons.mp hc with hc | hc
                · exact Or.inr ⟨pod, hpodmem, hinj, proxySvc, hc⟩
                · cases hc
        · rw [if_neg hinj] at h
          simp only [Except.ok.injEq] at h
          subst h
          exact ⟨fun ip hip => mem_insertAddr_of_mem _ _ _ hip,
            fun ref' href' _ => mem_insertAddr_self _ _,
            fun c hc => Or.inl hc⟩
    · rw [if_neg hk] at h
      simp only [Except.ok.injEq] at h
      subst h
      refine ⟨fun ip hip => hip, ?_, fun c hc => Or.inl hc⟩
      intro ref' href' hk'
      injection href' with href'
      subst href'
      exact absurd hk' hk

/-- The address-loop fold preserves and accumulates the per-step facts. -/
theorem processAddress_fold_spec (r : EndpointsController) (e : Endpoints)
    (pods : List Pod) (addrs : List EndpointAddress)
    (st res : List String × List AgentState × List AgentCall)
    (h : addrs.foldlM (processAddress r e pods) st = .ok res) :
    (∀ ip ∈ st.1, ip ∈ res.1) ∧
    (∀ addr ∈ addrs, ∀ ref, addr.targetRef = some ref → ref.kind = "Pod" →
      addr.ip ∈ res.1) ∧
    (∀ c ∈ res.2.2, c ∈ st.2.2 ∨ ∃ pod ∈ pods, hasBeenInjected pod = true ∧
      ∃ reg, c = AgentCall.register pod.hostIP reg) := by
  induction addrs generalizing st with
  | nil =>
    simp only [List.foldlM_nil] at h
    simp only [pure, Except.pure, Except.ok.injEq] at h
    subst h
    exact ⟨fun ip hip => hip, fun addr haddr => absurd haddr (List.not_mem_nil addr),
      fun c hc => Or.inl hc⟩
  | cons a rest ih =>
    rw [List.foldlM_cons] at h
    cases hstep : processAddress r e pods st a with
    | error err =>
      rw [hstep] at h
      simp only [bind, Except.bind] at h
      cases h
    | ok st' =>
      rw [hstep] at h
      simp only [bind, Except.bind] at h
      obtain ⟨hmono, haddr, hcalls⟩ := processAddress_step r e pods st a st' hstep
      obtain ⟨hmono', haddrs', hcalls'⟩ := ih st' h
      refine ⟨fun ip hip => hmono' ip (hmono ip hip), ?_, ?_⟩
      · intro addr hmem ref href hk
        rcases List.mem_cons.mp hmem with rfl | hmem
        · exact hmono' addr.ip (haddr ref href hk)
        · exact haddrs' addr hmem ref href hk
      · intro c hc
        rcases hcalls' c hc with hc' | hc'
        · exact hcalls c hc'
        · exact Or.inr hc'

/-- C8 (amended): during a found-branch pass the membership map accumulates
every pod-backed endpoint address, before and regardless of the
inject-check; only the registration calls are gated on the injected status
marker (every register call in the trace targets the host agent of an
injected pod). -/
theorem c8_map_accumulation_amended (r : EndpointsController) (e : Endpoints)
    (pods : List Pod) (world : List AgentState) (m : List String)
    (world1 : List AgentState) (calls : List AgentCall)
    (h : registerPhase r e pods world = .ok (m, world1, calls)) :
    (∀ subset ∈ e.subsets, ∀ addr ∈ subset.addresses ++ subset.notReadyAddresses,
      ∀ ref, addr.targetRef = some ref → ref.kind = "Pod" → addr.ip ∈ m) ∧
    (∀ ip reg, AgentCall.register ip reg ∈ calls →
      ∃ pod ∈ pods, hasBeenInjected pod = true ∧ pod.hostIP = ip) := by
  unfold registerPhase at h
  obtain ⟨-, hcover, hcalls⟩ := processAddress_fold_spec r e pods _ _ _ h
  constructor
  · intro subset hs addr haddr ref href hk
    exact hcover addr (List.mem_flatMap.mpr ⟨subset, hs, haddr⟩) ref href hk
  · intro ip reg hmem
    rcases hcalls _ hmem with hc | ⟨pod, hpod, hinj, reg', heq⟩
    · exact absurd hc (List.not_mem_nil _)
    · injection heq with h1 h2
      exact ⟨pod, hpod, hinj, h1.symm⟩

def regN : List String × List AgentState × List AgentCall :=
  match registerPhase rPlain eN [podNoInject] [] with
  | .ok t => t
  | .error _ => ([], [], [])

/-- Concrete check for the amended C8: the non-injected pod's address is in
the final membership map of its pass. -/
theorem c8_map_accumulation_amended_witness :
    "9.9.9.9" ∈ regN.1 :=
  (c8_map_accumulation_amended rPlain eN [podNoInject] [] regN.1 regN.2.1
      regN.2.2 rfl).1
    ⟨[⟨"9.9.9.9", some ⟨"Pod", "podN", "default"⟩⟩], []⟩ (by decide)
    ⟨"9.9.9.9", some ⟨"Pod", "podN", "default"⟩⟩ (by decide)
    ⟨"Pod", "podN", "default"⟩ rfl rfl

end ConsulK8s
